import Mathlib

/-!
Shallow embedding of the holepuncher-server control-plane orchestration
engine (Go sources: linode_client.go, linode.go, the protobuf façade file,
and the paginated-envelope file).

Modelling conventions:
  * Go `int` fields are Lean `Int`; counters are `Nat`.
  * Network traffic is abstracted to an oracle (`Provider`) that yields the
    decoded outcome of each remote call; the engine's observable behaviour
    is a `Run`: the ordered list of issued network calls, the ordered list
    of responses written through the protobuf writer, and a panic flag.
  * The repository is GOPATH-era Go (no go.mod; `gopkg.in/resty.v1`,
    `urfave/cli` v1, plain `protoapi` import path), so `for ... range`
    loops use the pre-Go-1.22 semantics: one loop variable per loop, and
    `&loopVar` aliases that single variable.  Functions that capture such
    a pointer are embedded with exactly that aliasing semantics.
-/

/-- Status enumeration of a Linode instance (linode.go, `LinodeStatus`). -/
inductive LinodeStatus where
  | offline
  | booting
  | running
  | shuttingDown
  | rebooting
  | provisioning
  | deleting
  | migrating
  | restoring
  | rebuilding
  | cloning
  deriving DecidableEq

/-- Resource specs block of `LinodeInfo` (linode.go). -/
structure LinodeSpecs where
  disk : Int
  memory : Int
  vcpus : Int
  transfer : Int
  deriving DecidableEq

/-- Description of a single active Linode instance (linode.go, `LinodeInfo`). -/
structure LinodeInfo where
  id : Int
  region : String
  image : String
  ipv4 : List String
  ipv6 : String
  label : String
  group : String
  linodeType : String
  status : LinodeStatus
  createdAt : String
  updated : String
  hypervisor : String
  specs : LinodeSpecs
  deriving DecidableEq

/-- A single StackScript description (linode.go, `StackScript`). -/
structure StackScript where
  id : Int
  label : String
  description : String
  images : List String
  isPublic : Bool
  deriving DecidableEq

/-!
## Pagination cursor (linode_client.go)

A paginated provider listing is modelled as the list of its pages
(`pages : List (List α)`); the envelope's `pageCount()` is `pages.length`
and fetching page `p` (1-based) yields `pages.getD (p - 1) []`.
-/

/-- Cursor state (linode_client.go, `pageIterator`): the page counter,
starting at 1. The endpoint and prepared request are fixed per listing and
are not part of the observable state. -/
structure PageIterator where
  page : Nat
  deriving DecidableEq

/-- One `next()` step of the cursor (linode_client.go lines 62-82, success
path): fetch the current page, increment the page counter, and report
`hasMorePages := e.page < pageInfo.pageCount()` — evaluated AFTER the
increment.  Returns (items, advanced cursor, hasMorePages). -/
def PageIterator.next (pages : List (List α)) (e : PageIterator) :
    List α × PageIterator × Bool :=
  (pages.getD (e.page - 1) [], ⟨e.page + 1⟩, decide (e.page + 1 < pages.length))

/-- The caller loop shared by every `List*` method (linode.go, e.g.
`ListLinodeInstances` lines 248-270, success path): call `next()`, append
the returned items, stop when `hasNext` is false.  The branch condition
`page + 1 < pages.length` is precisely the `hasMorePages` boolean produced
by `PageIterator.next` at cursor position `page`
(see `paginatedDrainGo_eq_next`).  The Go loop is syntactically unbounded;
here the recursion is structural on the fuel `remaining`, which the caller
sets to `pages.length` — enough for every reachable iteration, since the
loop re-enters only while `page + 1 < pages.length` and `page` starts at 1
and increases.  When the fuel runs out the loop-exit value (the current
fetch) is returned, which coincides with the conditional's value at every
fuel-exhausted reachable state. -/
def paginatedDrainGo (pages : List (List α)) : Nat → Nat → List α
  | page, 0 => pages.getD (page - 1) []
  | page, remaining + 1 =>
    if page + 1 < pages.length then
      pages.getD (page - 1) [] ++ paginatedDrainGo pages (page + 1) remaining
    else
      pages.getD (page - 1) []

/-- `ListLinodeInstances` (linode.go lines 248-270) drives the cursor from
page 1 until `hasNext` is false, concatenating every call's items. -/
def listLinodeInstancesPages (pages : List (List LinodeInfo)) : List LinodeInfo :=
  paginatedDrainGo pages 1 pages.length

/-!
## Transport executor error classification (linode_client.go, `linodeSimpleExec`)
-/

/-- Body of a structured provider error (linode.go, `LinodeError.Errors`):
an ordered list of (field, reason) pairs. -/
structure LinodeErrorBody where
  errors : List (String × String)
  deriving DecidableEq

/-- The decoded error object attached to a response: either the provider's
structured `*LinodeError`, or some other decoded object (rendered via its
string form in the generic message). -/
inductive ErrObject where
  | linode (body : LinodeErrorBody)
  | other (s : String)
  deriving DecidableEq

/-- A `*LinodeError` after `linodeSimpleExec` annotated it with the derived
classification flags (linode_client.go lines 113-116). -/
structure ClassifiedLinodeError where
  body : LinodeErrorBody
  isAuthError : Bool
  isPermissionsError : Bool
  deriving DecidableEq

/-- The error value produced by `linodeSimpleExec` for a response with
status > 299: a classified structured error or a generic message error. -/
inductive ApiError where
  | linode (e : ClassifiedLinodeError)
  | generic (msg : String)
  deriving DecidableEq

/-- The generic message format `"API error (%s '%s'): %s"` instantiated
with method, endpoint, and detail (linode_client.go line 111). -/
def errFormatMsg (method endpoint detail : String) : String :=
  "API error (" ++ method ++ " '" ++ endpoint ++ "'): " ++ detail

/-- Status-classification step of `linodeSimpleExec` (linode_client.go
lines 109-124): on status > 299, a decoded `*LinodeError` is annotated with
`isAuthError := status == 401` and `isPermissionsError := status == 403`;
any other decoded object yields a generic message error; a missing error
object yields the generic "No error object, details missing" error.  A
status ≤ 299 produces no error (`none`). -/
def classifyResponse (method endpoint : String) (status : Nat)
    (errObject : Option ErrObject) : Option ApiError :=
  if 299 < status then
    some (match errObject with
      | some (.linode body) =>
          .linode ⟨body, status == 401, status == 403⟩
      | some (.other s) => .generic (errFormatMsg method endpoint s)
      | none =>
          .generic (errFormatMsg method endpoint "No error object, details missing"))
  else
    none

/-!
String-containment helpers used to state what a generic error message does
and does not carry. `chunkAt s t` checks that `t` occurs at the head of
`s`; `containsChunk s t` checks that `t` occurs anywhere inside `s`.
-/

def chunkAt : List Char → List Char → Bool
  | _, [] => true
  | [], _ :: _ => false
  | a :: s, b :: t => a == b && chunkAt s t

def containsChunk (s t : List Char) : Bool :=
  chunkAt s t ||
    (match s with
     | [] => false
     | _ :: s' => containsChunk s' t)

/-!
## Tunnel role guard (façade file, `retrieveTunnelInstance`,
`ensureTunnelExists`, `ensureTunnelDoesNotExist`)
-/

/-- `strings.HasPrefix(label, name)`: `name` occurs at the head of
`label`. -/
def goHasRolePrefix (label name : String) : Bool :=
  chunkAt label.toList name.toList

/-- `retrieveTunnelInstance` (façade file lines 381-408), given the decoded
instance listing: collect `&instance` for every listing entry whose label
has `name` at its head, and return `tunnelInstances[0]` when at least one
match exists.  Pre-Go-1.22 aliasing: every appended pointer is the address
of the single per-loop variable `instance`, which after the (break-less)
loop holds the LAST element of `instances`; so a non-empty match set yields
the last LISTED instance, whether or not it matches. -/
def retrieveTunnelInstance (instances : List LinodeInfo) (name : String) :
    Option LinodeInfo :=
  if (instances.filter (fun i => goHasRolePrefix i.label name)).isEmpty then
    none
  else
    instances.getLast?

/-- `ensureTunnelExists` (façade file lines 355-366): propagate a listing
error; fail with "Tunnel does not exist" when the lookup finds nothing;
otherwise return the retrieved instance. -/
def ensureTunnelExists (listResult : Except String (List LinodeInfo))
    (name : String) : Except String LinodeInfo :=
  match listResult with
  | .error e => .error e
  | .ok instances =>
    match retrieveTunnelInstance instances name with
    | none => .error "Tunnel does not exist"
    | some t => .ok t

/-- `ensureTunnelDoesNotExist` (façade file lines 368-379): propagate a
listing error; fail with "Tunnel already exists" when the lookup finds an
instance; otherwise succeed.  Returns the error message when it fails. -/
def ensureTunnelDoesNotExist (listResult : Except String (List LinodeInfo))
    (name : String) : Option String :=
  match listResult with
  | .error e => some e
  | .ok instances =>
    match retrieveTunnelInstance instances name with
    | some _ => some "Tunnel already exists"
    | none => none

/-!
## Provisioning parameter builder (façade file, `makeStackScriptParams`)
-/

/-- Heterogeneous scalar values of the `stackscript_data` parameter map. -/
inductive UdfValue where
  | str (s : String)
  | num (n : Nat)
  deriving DecidableEq

/-- Wireguard feature options (protoapi `WireguardOptions`). -/
structure WireguardOptions where
  port : Nat
  serverKey : String
  peerKeys : List String
  deriving DecidableEq

/-- Obfsproxy IPv4 feature options (protoapi `ObfsproxyIPv4Options`). -/
structure ObfsproxyIPv4Options where
  port : Nat
  secret : String
  deriving DecidableEq

/-- Obfsproxy IPv6 feature options (protoapi `ObfsproxyIPv6Options`). -/
structure ObfsproxyIPv6Options where
  port : Nat
  secret : String
  deriving DecidableEq

/-- Script selection loop of `makeStackScriptParams` (façade file lines
314-325): iterate over the whole catalog setting `script = &s` on every
label match, then test `script == nil`.  Pre-Go-1.22 aliasing: `&s` is the
address of the single per-loop variable, which after the (break-less) loop
holds the LAST element of `scripts`; so when at least one label matches,
the selected script is the last CATALOG entry, whether or not its label
matches.  `none` is returned exactly when no entry's label matches. -/
def findStackScript (scripts : List StackScript) (name : String) :
    Option StackScript :=
  if (scripts.filter (fun s => s.label == name)).isEmpty then
    none
  else
    scripts.getLast?

/-- Parameter-map construction of `makeStackScriptParams` (façade file
lines 327-352), as an association list in insertion order (the Go map has
unique keys, so order carries no meaning): account credentials always;
per optional feature an enable flag (1 when options are present, 0 when
absent) plus, only when present, the feature's specific fields, the
wireguard peer list joined by single spaces (`strings.Join(_, " ")`). -/
def stackScriptUdfParams (username password : String)
    (wg : Option WireguardOptions)
    (obfs4 : Option ObfsproxyIPv4Options)
    (obfs6 : Option ObfsproxyIPv6Options) : List (String × UdfValue) :=
  [("udf_local_user_name", UdfValue.str username),
   ("udf_local_user_password", UdfValue.str password)]
  ++ (match wg with
      | some w =>
          [("udf_enable_wireguard", UdfValue.num 1),
           ("udf_wireguard_port", UdfValue.num w.port),
           ("udf_wireguard_private_key", UdfValue.str w.serverKey),
           ("udf_wireguard_peer_keys", UdfValue.str (String.intercalate " " w.peerKeys))]
      | none => [("udf_enable_wireguard", UdfValue.num 0)])
  ++ (match obfs4 with
      | some o =>
          [("udf_enable_obfs4", UdfValue.num 1),
           ("udf_obfs4_port", UdfValue.num o.port),
           ("udf_obfs4_secret", UdfValue.str o.secret)]
      | none => [("udf_enable_obfs4", UdfValue.num 0)])
  ++ (match obfs6 with
      | some o =>
          [("udf_enable_obfs6", UdfValue.num 1),
           ("udf_obfs6_port", UdfValue.num o.port),
           ("udf_obfs6_secret", UdfValue.str o.secret)]
      | none => [("udf_enable_obfs6", UdfValue.num 0)])

/-- `makeStackScriptParams` (façade file lines 300-353) end to end, given
the decoded outcome of its `ListStackScriptsPrivate` call: propagate a
listing error; fail with "Stackscript is missing: name" when no catalog
label matches; otherwise return the selected script and the parameter
map. -/
def makeStackScriptParams (scriptsResult : Except String (List StackScript))
    (scriptName username password : String)
    (wg : Option WireguardOptions)
    (obfs4 : Option ObfsproxyIPv4Options)
    (obfs6 : Option ObfsproxyIPv6Options) :
    Except String (StackScript × List (String × UdfValue)) :=
  match scriptsResult with
  | .error e => .error e
  | .ok scripts =>
    match findStackScript scripts scriptName with
    | none => .error ("Stackscript is missing: " ++ scriptName)
    | some script =>
      .ok (script, stackScriptUdfParams username password wg obfs4 obfs6)

/-!
## Convergence poller (façade file, `awaitUntilRunning`, lines 261-295)
-/

/-- Outcome classification of the poller: a propagated transport error
(carrying the poll failure) or the dedicated attempt-exhaustion timeout
("Instance took too long to come online"). -/
inductive AwaitError where
  | transport (e : String)
  | timeout
  deriving DecidableEq

/-- Observable summary of one poller run: the final outcome, the number of
status polls issued, and the seconds spent sleeping (grace period plus the
fixed inter-poll delays). -/
structure AwaitRun where
  result : Except AwaitError LinodeInfo
  polls : Nat
  sleptSeconds : Nat

/-- `delay := 7 * time.Second` (façade file line 263). -/
def pollIntervalSeconds : Nat := 7

/-- `maxAttempts := 20` (façade file line 262). -/
def pollMaxAttempts : Nat := 20

/-- The poll loop of `awaitUntilRunning` (façade file lines 269-294),
driven by an oracle `query` giving the decoded outcome of the k-th status
poll (0-based): on a poll error, abort immediately with that transport
error; on `running`, return the snapshot; otherwise increment the attempt
counter, time out once it reaches `pollMaxAttempts`, else sleep one
interval and poll again.  `attempt` is the source's counter (the number of
polls already performed before this iteration).  The Go loop is
syntactically unbounded and bounded only by the attempt counter; here the
recursion is structural on `remaining`, the attempt budget still open,
which every caller keeps equal to `pollMaxAttempts - attempt`; under that
invariant the `remaining = 0` branch is unreachable, because the source's
own exit test (`pollMaxAttempts ≤ attempt + 1`) fires first. -/
def awaitGo (query : Nat → Except String LinodeInfo) :
    Nat → Nat → AwaitRun
  | _, 0 => ⟨.error .timeout, 1, 0⟩
  | attempt, remaining + 1 =>
    match query attempt with
    | .error e => ⟨.error (.transport e), 1, 0⟩
    | .ok inst =>
      if inst.status = .running then
        ⟨.ok inst, 1, 0⟩
      else if pollMaxAttempts ≤ attempt + 1 then
        ⟨.error .timeout, 1, 0⟩
      else
        let r := awaitGo query (attempt + 1) remaining
        ⟨r.result, r.polls + 1, pollIntervalSeconds + r.sleptSeconds⟩

/-- `awaitUntilRunning` (façade file lines 261-295): sleep an initial grace
period of two polling intervals (`time.Sleep(delay * 2)`), then run the
poll loop starting with attempt counter 0 (full attempt budget open). -/
def awaitUntilRunning (query : Nat → Except String LinodeInfo) : AwaitRun :=
  let r := awaitGo query 0 pollMaxAttempts
  ⟨r.result, r.polls, 2 * pollIntervalSeconds + r.sleptSeconds⟩

/-!
## Orchestration façade (façade file, `protobufLinode`)

Each operation is embedded as a function from its request and a provider
oracle to a `Run`: the ordered list of network calls it issued, the ordered
list of responses it wrote through the protobuf writer, and whether it
panicked in `authedR` (linode.go lines 405-410) before any of that.
-/

/-- protoapi `LinodeAuth`: the bearer credential of a request. -/
structure LinodeAuth where
  accessToken : String
  deriving DecidableEq

/-- `extractAuth` (façade file lines 254-259): the access token when the
auth message is present, the empty string otherwise. -/
def extractAuth (a : Option LinodeAuth) : String :=
  match a with
  | some auth => auth.accessToken
  | none => ""

/-- The label prefix identifying the tunnel role
(`newProtobufLinode`, façade file line 23). -/
def instanceLabel : String := "hp_instance"

/-- The provisioning script label (`newProtobufLinode`, façade file
line 25). -/
def instanceScript : String := "freedom_node"

/-- One authenticated network call issued by the engine. -/
inductive NetCall where
  | listInstances
  | listScripts
  | createInstance
  | rebuildInstance
  | deleteInstance
  | queryInstance
  deriving DecidableEq

/-- One response written through the protobuf writer. -/
inductive WriteEvent where
  | errorResponse
  | okInstance (i : LinodeInfo)
  | okInstanceList (l : List LinodeInfo)
  | okScriptList (l : List StackScript)
  | okEmpty
  deriving DecidableEq

/-- Observable behaviour of one façade operation. -/
structure Run where
  calls : List NetCall
  writes : List WriteEvent
  panicked : Bool
  deriving DecidableEq

/-- The run produced when `authedR` (linode.go lines 405-410) panics while
constructing the first authenticated request: no network call was issued
and no response was written. -/
def panicRun : Run := ⟨[], [], true⟩

/-- Decoded outcomes of the provider calls an operation may issue. -/
structure Provider where
  listInstances : Except String (List LinodeInfo)
  listScripts : Except String (List StackScript)
  createResult : Except String LinodeInfo
  rebuildResult : Except String LinodeInfo
  deleteResult : Except String Unit
  pollResults : Nat → Except String LinodeInfo

/-- protoapi `LinodeCreateTunnelRequest`. -/
structure LinodeCreateTunnelRequest where
  auth : Option LinodeAuth
  plan : String
  region : String
  sshKeys : List String
  rootPassword : String
  regularAccountName : String
  regularAccountPassword : String
  wireguardOptions : Option WireguardOptions
  obfsproxy4Options : Option ObfsproxyIPv4Options
  obfsproxy6Options : Option ObfsproxyIPv6Options
  deriving DecidableEq

/-- protoapi `LinodeRebuildTunnelRequest`. -/
structure LinodeRebuildTunnelRequest where
  auth : Option LinodeAuth
  sshKeys : List String
  rootPassword : String
  regularAccountName : String
  regularAccountPassword : String
  wireguardOptions : Option WireguardOptions
  obfsproxy4Options : Option ObfsproxyIPv4Options
  obfsproxy6Options : Option ObfsproxyIPv6Options
  deriving DecidableEq

/-- `CreateTunnel` (façade file lines 29-84).  Control flow embedded
verbatim, including its two notable quirks:
  * the guard failure branch (lines 32-34) calls `WriteError` WITHOUT a
    `return`, so after a guard failure (match found, or even a listing
    transport error) execution falls through to validation and the rest of
    the operation;
  * any `awaitUntilRunning` error (transport or timeout alike) falls
    through to writing the success response with the unpolled instance
    returned by `Create()` (lines 74-83).
The first authenticated request is built inside the guard's
`ListLinodeInstances`, so an empty api key panics before any network
call. -/
def createTunnel (args : LinodeCreateTunnelRequest) (prov : Provider) : Run :=
  let key := extractAuth args.auth
  if key.length = 0 then
    panicRun
  else
    let guardWrites :=
      match ensureTunnelDoesNotExist prov.listInstances instanceLabel with
      | some _ => [WriteEvent.errorResponse]
      | none => []
    if args.plan = "" then
      ⟨[.listInstances], guardWrites ++ [.errorResponse], false⟩
    else if args.region = "" then
      ⟨[.listInstances], guardWrites ++ [.errorResponse], false⟩
    else
      match makeStackScriptParams prov.listScripts instanceScript
          args.regularAccountName args.regularAccountPassword
          args.wireguardOptions args.obfsproxy4Options args.obfsproxy6Options with
      | .error _ =>
        ⟨[.listInstances, .listScripts], guardWrites ++ [.errorResponse], false⟩
      | .ok _ =>
        match prov.createResult with
        | .error _ =>
          ⟨[.listInstances, .listScripts, .createInstance],
           guardWrites ++ [.errorResponse], false⟩
        | .ok created =>
          let ar := awaitUntilRunning prov.pollResults
          let calls := [NetCall.listInstances, .listScripts, .createInstance]
            ++ List.replicate ar.polls .queryInstance
          match ar.result with
          | .ok latest => ⟨calls, guardWrites ++ [.okInstance latest], false⟩
          | .error _ => ⟨calls, guardWrites ++ [.okInstance created], false⟩

/-- `RebuildTunnel` (façade file lines 86-126).  Unlike `CreateTunnel`,
its guard failure branch does `return`; like `CreateTunnel`, any
`awaitUntilRunning` error degrades to the success response with the
unpolled instance returned by `Rebuild()`. -/
def rebuildTunnel (args : LinodeRebuildTunnelRequest) (prov : Provider) : Run :=
  let key := extractAuth args.auth
  if key.length = 0 then
    panicRun
  else
    match ensureTunnelExists prov.listInstances instanceLabel with
    | .error _ => ⟨[.listInstances], [.errorResponse], false⟩
    | .ok _tunnel =>
      match makeStackScriptParams prov.listScripts instanceScript
          args.regularAccountName args.regularAccountPassword
          args.wireguardOptions args.obfsproxy4Options args.obfsproxy6Options with
      | .error _ =>
        ⟨[.listInstances, .listScripts], [.errorResponse], false⟩
      | .ok _ =>
        match prov.rebuildResult with
        | .error _ =>
          ⟨[.listInstances, .listScripts, .rebuildInstance], [.errorResponse], false⟩
        | .ok rebuilt =>
          let ar := awaitUntilRunning prov.pollResults
          let calls := [NetCall.listInstances, .listScripts, .rebuildInstance]
            ++ List.replicate ar.polls .queryInstance
          match ar.result with
          | .ok latest => ⟨calls, [.okInstance latest], false⟩
          | .error _ => ⟨calls, [.okInstance rebuilt], false⟩

/-- `DestroyTunnel` (façade file lines 128-143). -/
def destroyTunnel (auth : Option LinodeAuth) (prov : Provider) : Run :=
  let key := extractAuth auth
  if key.length = 0 then
    panicRun
  else
    match ensureTunnelExists prov.listInstances instanceLabel with
    | .error _ => ⟨[.listInstances], [.errorResponse], false⟩
    | .ok _tunnel =>
      match prov.deleteResult with
      | .error _ => ⟨[.listInstances, .deleteInstance], [.errorResponse], false⟩
      | .ok _ => ⟨[.listInstances, .deleteInstance], [.okEmpty], false⟩

/-- `TunnelStatus` (façade file lines 145-154). -/
def tunnelStatus (auth : Option LinodeAuth) (prov : Provider) : Run :=
  let key := extractAuth auth
  if key.length = 0 then
    panicRun
  else
    match ensureTunnelExists prov.listInstances instanceLabel with
    | .error _ => ⟨[.listInstances], [.errorResponse], false⟩
    | .ok tunnel => ⟨[.listInstances], [.okInstance tunnel], false⟩

/-- `ListInstances` (façade file lines 181-193). -/
def listInstancesOp (auth : Option LinodeAuth) (prov : Provider) : Run :=
  let key := extractAuth auth
  if key.length = 0 then
    panicRun
  else
    match prov.listInstances with
    | .error _ => ⟨[.listInstances], [.errorResponse], false⟩
    | .ok l => ⟨[.listInstances], [.okInstanceList l], false⟩

/-- `ListStackScripts` (façade file lines 235-252). -/
def listStackScriptsOp (auth : Option LinodeAuth) (prov : Provider) : Run :=
  let key := extractAuth auth
  if key.length = 0 then
    panicRun
  else
    match prov.listScripts with
    | .error _ => ⟨[.listScripts], [.errorResponse], false⟩
    | .ok l => ⟨[.listScripts], [.okScriptList l], false⟩

/-!
## Concrete fixtures

Shared concrete instances, scripts, requests and provider oracles used to
evaluate the embedded operations on explicit inputs.
-/

/-- A plausible specs block shared by the fixture instances. -/
def sampleSpecs : LinodeSpecs := ⟨25600, 2048, 1, 2000⟩

/-- A running instance whose label "hp_instance" carries the tunnel role
prefix. -/
def tunnelInstance : LinodeInfo :=
  ⟨101, "us-east", "linode/debian9", ["203.0.113.5"], "2001:db8::5/64",
   "hp_instance", "", "g6-nanode-1", .running,
   "2018-03-01T10:00:00", "2018-03-01T10:05:00", "kvm", sampleSpecs⟩

/-- An unrelated instance whose label "db-server" does NOT carry the
tunnel role prefix. -/
def bystanderInstance : LinodeInfo :=
  ⟨202, "eu-west", "linode/ubuntu18.04", ["198.51.100.7"], "2001:db8::7/64",
   "db-server", "infra", "g6-standard-2", .running,
   "2018-01-15T08:00:00", "2018-02-01T09:00:00", "kvm", sampleSpecs⟩

/-- The still-provisioning instance returned by a `Create()`/`Rebuild()`
call. -/
def createdInstance : LinodeInfo :=
  ⟨303, "us-east", "linode/debian9", ["203.0.113.9"], "2001:db8::9/64",
   "hp_instance", "", "g6-nanode-1", .provisioning,
   "2018-03-02T12:00:00", "2018-03-02T12:00:00", "kvm", sampleSpecs⟩

/-- The provisioning script the engine looks up ("freedom_node"). -/
def freedomScript : StackScript :=
  ⟨7001, "freedom_node", "Tunnel provisioning script", ["linode/debian9"], false⟩

/-- An unrelated private script whose label does not match. -/
def bystanderScript : StackScript :=
  ⟨7002, "billing-report", "Unrelated private script", ["linode/debian9"], false⟩

/-- A fully populated create request (authenticated, plan and region
present). -/
def validCreateArgs : LinodeCreateTunnelRequest :=
  ⟨some ⟨"token123"⟩, "g6-nanode-1", "us-east", ["ssh-rsa AAAA"],
   "hunter2", "tunneluser", "tunnelpass", none, some ⟨443, "obfs-secret"⟩, none⟩

/-- `validCreateArgs` with the region left empty. -/
def missingRegionArgs : LinodeCreateTunnelRequest :=
  { validCreateArgs with region := "" }

/-- A create request without an auth message. -/
def noAuthCreateArgs : LinodeCreateTunnelRequest :=
  { validCreateArgs with auth := none }

/-- A rebuild request without an auth message. -/
def noAuthRebuildArgs : LinodeRebuildTunnelRequest :=
  ⟨none, ["ssh-rsa AAAA"], "hunter2", "tunneluser", "tunnelpass",
   none, some ⟨443, "obfs-secret"⟩, none⟩

/-- A provider oracle for an account with no instances: every call
succeeds, the script catalog holds exactly the provisioning script, the
create/rebuild call returns `createdInstance`, and every status poll
reports the running `tunnelInstance`. -/
def emptyAccountProvider : Provider :=
  ⟨.ok [], .ok [freedomScript], .ok createdInstance, .ok createdInstance,
   .ok (), fun _ => .ok tunnelInstance⟩

/-- `emptyAccountProvider`, but the account already holds the running
tunnel instance. -/
def occupiedAccountProvider : Provider :=
  { emptyAccountProvider with listInstances := .ok [tunnelInstance] }

/-- `emptyAccountProvider`, but every status poll fails with the transport
error `e`. -/
def pollErrAccountProvider (e : String) : Provider :=
  { emptyAccountProvider with pollResults := fun _ => .error e }

/-- A fully populated rebuild request (authenticated). -/
def validRebuildArgs : LinodeRebuildTunnelRequest :=
  ⟨some ⟨"token123"⟩, ["ssh-rsa AAAA"], "hunter2", "tunneluser", "tunnelpass",
   none, some ⟨443, "obfs-secret"⟩, none⟩

/-- `pollErrAccountProvider e`, but the account holds the running tunnel
instance (so the rebuild guard finds it). -/
def occupiedPollErrProvider (e : String) : Provider :=
  { pollErrAccountProvider e with listInstances := .ok [tunnelInstance] }

/-!
## General lemmas about the embedded operations
-/

theorem PageIterator.next_eq (pages : List (List α)) (e : PageIterator) :
    e.next pages =
      (pages.getD (e.page - 1) [], ⟨e.page + 1⟩, decide (e.page + 1 < pages.length)) :=
  rfl

/-- The loop body of `paginatedDrainGo` agrees with `PageIterator.next`:
at cursor position `page` the loop appends exactly the items returned by
`next` and recurses exactly when `next`'s `hasMorePages` is true. -/
theorem paginatedDrainGo_eq_next (pages : List (List α)) (page r : Nat) :
    paginatedDrainGo pages page (r + 1) =
      (if (PageIterator.next pages ⟨page⟩).2.2 = true then
        (PageIterator.next pages ⟨page⟩).1 ++ paginatedDrainGo pages (page + 1) r
      else (PageIterator.next pages ⟨page⟩).1) := by
  simp [paginatedDrainGo, PageIterator.next]

/-- If every poll within the attempt budget reports a successfully decoded
but non-running instance, the loop exhausts its budget: it performs
exactly `remaining` further polls, sleeps one interval between consecutive
polls, and ends in the dedicated timeout error. -/
theorem awaitGo_timeout (query : Nat → Except String LinodeInfo) :
    ∀ remaining attempt, attempt + remaining = pollMaxAttempts → 1 ≤ remaining →
    (∀ k, k < pollMaxAttempts →
      ∃ i, query k = Except.ok i ∧ i.status ≠ LinodeStatus.running) →
    awaitGo query attempt remaining =
      ⟨.error .timeout, remaining, (remaining - 1) * pollIntervalSeconds⟩ := by
  intro remaining
  induction remaining with
  | zero =>
    intro attempt _ h1 _
    exact absurd h1 (by omega)
  | succ r ih =>
    intro attempt hsum _ hq
    obtain ⟨i, hqi, hst⟩ := hq attempt (by omega)
    by_cases hle : pollMaxAttempts ≤ attempt + 1
    · have hr0 : r = 0 := by
        have : pollMaxAttempts = 20 := rfl
        omega
      subst hr0
      simp [awaitGo, hqi, hst, hle]
    · have hrec := ih (attempt + 1) (by omega) (by omega) hq
      simp [awaitGo, hqi, hst, hle, hrec, pollIntervalSeconds]
      omega

/-- If the polls before index `k` (relative to the current attempt
counter) succeed with non-running statuses and poll `k` fails with a
transport error, the loop aborts at that poll: it performs exactly `k + 1`
further polls and propagates the transport error. -/
theorem awaitGo_transport (query : Nat → Except String LinodeInfo) (e : String) :
    ∀ k attempt remaining, attempt + remaining = pollMaxAttempts →
    attempt + k < pollMaxAttempts →
    (∀ j, j < k →
      ∃ i, query (attempt + j) = Except.ok i ∧ i.status ≠ LinodeStatus.running) →
    query (attempt + k) = Except.error e →
    awaitGo query attempt remaining =
      ⟨.error (.transport e), k + 1, k * pollIntervalSeconds⟩ := by
  intro k
  induction k with
  | zero =>
    intro attempt remaining hsum _ _ hq
    obtain ⟨r, hr⟩ : ∃ r, remaining = r + 1 := ⟨remaining - 1, by omega⟩
    subst hr
    have hq' : query attempt = Except.error e := by simpa using hq
    simp [awaitGo, hq']
  | succ k ih =>
    intro attempt remaining hsum hlt hok hq
    obtain ⟨r, hr⟩ : ∃ r, remaining = r + 1 := ⟨remaining - 1, by omega⟩
    subst hr
    obtain ⟨i, hqi, hst⟩ := hok 0 (by omega)
    have hqi' : query attempt = Except.ok i := by simpa using hqi
    have hle : ¬ (pollMaxAttempts ≤ attempt + 1) := by omega
    have hok' : ∀ j, j < k →
        ∃ i, query (attempt + 1 + j) = Except.ok i ∧
          i.status ≠ LinodeStatus.running := by
      intro j hj
      have heq : attempt + 1 + j = attempt + (j + 1) := by omega
      rw [heq]
      exact hok (j + 1) (by omega)
    have hq' : query (attempt + 1 + k) = Except.error e := by
      have heq : attempt + 1 + k = attempt + (k + 1) := by omega
      rw [heq]
      exact hq
    have hrec := ih (attempt + 1) r (by omega) (by omega) hok' hq'
    simp [awaitGo, hqi', hst, hle, hrec, pollIntervalSeconds]
    omega

/-!
## Claim theorems
-/

/-- C1: evaluation of the pagination loop at its failing input.  The claim
says that driving the cursor until `hasMore = false` yields the
concatenation of all N pages with no omissions.  On a 2-page listing the
first `next()` call already reports `hasMore = false` (the counter is
incremented to 2 and `2 < 2` fails), so the drained listing is only page 1
and the last page is dropped; the claim holds only for N = 1.  Conjuncts:
the 2-page drain yields page 1 alone; the full concatenation is both
pages; the two differ; the 1-page drain is correct. -/
theorem pagination_dropsLastPage :
    listLinodeInstancesPages [[tunnelInstance], [bystanderInstance]] = [tunnelInstance] ∧
    List.flatten [[tunnelInstance], [bystanderInstance]] =
      [tunnelInstance, bystanderInstance] ∧
    listLinodeInstancesPages [[tunnelInstance], [bystanderInstance]] ≠
      List.flatten [[tunnelInstance], [bystanderInstance]] ∧
    listLinodeInstancesPages [[tunnelInstance]] = [tunnelInstance] :=
  ⟨by decide, by decide, by decide, by decide⟩

/-- C2: evaluation of `CreateTunnel` at its failing input.  The claim says
that when the role-guard lookup finds a matching instance the operation
fails with the "already exists" error, issues no creation call, and writes
exactly one response.  Because the guard-failure branch lacks a `return`,
the code writes the error response and then proceeds: it issues the script
lookup, the creation call and a status poll, and writes a second (success)
response. -/
theorem createTunnel_roleExists_proceedsAnyway :
    createTunnel validCreateArgs occupiedAccountProvider =
      ⟨[.listInstances, .listScripts, .createInstance, .queryInstance],
       [.errorResponse, .okInstance tunnelInstance], false⟩ ∧
    NetCall.createInstance ∈
      (createTunnel validCreateArgs occupiedAccountProvider).calls ∧
    (createTunnel validCreateArgs occupiedAccountProvider).writes.length = 2 :=
  ⟨by decide, by decide, by decide⟩

/-- C4: evaluation of the role-guard lookup at its failing input.  The
claim says that with exactly one label-prefix match the guard returns that
instance's record unmodified.  Because every pointer appended in the
collection loop aliases the single loop variable, the guard instead
returns the LAST LISTED instance: here the listing is [match, non-match]
and the guard returns the non-matching `bystanderInstance`. -/
theorem roleGuard_returnsLastListedInstance :
    retrieveTunnelInstance [tunnelInstance, bystanderInstance] instanceLabel =
      some bystanderInstance ∧
    goHasRolePrefix tunnelInstance.label instanceLabel = true ∧
    goHasRolePrefix bystanderInstance.label instanceLabel = false ∧
    ensureTunnelExists (Except.ok [tunnelInstance, bystanderInstance]) instanceLabel =
      Except.ok bystanderInstance :=
  ⟨by decide, by decide, by decide, rfl⟩

/-- C8: evaluation of the script-catalog selection at its failing input.
The claim says the builder selects the entry whose label equals the
requested label (last match winning).  Because `script = &s` aliases the
single loop variable, whenever any label matches the selected entry is the
LAST CATALOG entry: for the catalog [freedom_node, billing-report] the
selected script is `bystanderScript`, whose label does not match at all.
The no-match case still correctly yields `none`, and when the matching
entry happens to be last, the selection is right. -/
theorem findStackScript_returnsLastCatalogEntry :
    findStackScript [freedomScript, bystanderScript] instanceScript =
      some bystanderScript ∧
    bystanderScript.label ≠ instanceScript ∧
    findStackScript [bystanderScript] instanceScript = none ∧
    findStackScript [bystanderScript, freedomScript] instanceScript =
      some freedomScript :=
  ⟨by decide, by decide, by decide, by decide⟩

/-- C3 counterexample: a create request with an empty region (plan present,
token present, guard finding nothing) fails with a single validation error
response — but the operation has already issued the role-guard's
instance-listing network call, so the claim's "zero network calls before
failing" is false. -/
theorem createTunnel_missingRegion_counterexample :
    createTunnel missingRegionArgs emptyAccountProvider =
      ⟨[.listInstances], [.errorResponse], false⟩ ∧
    (createTunnel missingRegionArgs emptyAccountProvider).calls ≠ [] :=
  ⟨by decide, by decide⟩

/-- C3 (amended): a create request with an empty plan or region, whose
role-guard lookup succeeds and finds no match, fails with exactly one
validation error response and issues no script-lookup or creation call —
but only after the role-guard's single instance-listing network call,
which precedes validation. -/
theorem createTunnel_missingField_guardListingFirst
    (args : LinodeCreateTunnelRequest) (prov : Provider)
    (hkey : ¬ (extractAuth args.auth).length = 0)
    (hguard : ensureTunnelDoesNotExist prov.listInstances instanceLabel = none)
    (hmiss : args.plan = "" ∨ args.region = "") :
    createTunnel args prov = ⟨[.listInstances], [.errorResponse], false⟩ := by
  by_cases hp : args.plan = ""
  · simp [createTunnel, hkey, hguard, hp]
  · rcases hmiss with h | hr
    · exact absurd h hp
    · simp [createTunnel, hkey, hguard, hp, hr]

/-- Witness for `createTunnel_missingField_guardListingFirst`: its
hypotheses hold at `missingRegionArgs` / `emptyAccountProvider` and the
amended conclusion follows there. -/
theorem createTunnel_missingField_guardListingFirst_witness :
    ¬ (extractAuth missingRegionArgs.auth).length = 0 ∧
    ensureTunnelDoesNotExist emptyAccountProvider.listInstances instanceLabel = none ∧
    (missingRegionArgs.plan = "" ∨ missingRegionArgs.region = "") ∧
    createTunnel missingRegionArgs emptyAccountProvider =
      ⟨[.listInstances], [.errorResponse], false⟩ :=
  ⟨by decide, by decide, Or.inr (by decide),
   createTunnel_missingField_guardListingFirst missingRegionArgs emptyAccountProvider
     (by decide) (by decide) (Or.inr (by decide))⟩

/-- C5 counterexample: valid create request, empty account, successful
creation, and a transport error on the very first status poll.  The claim
says the transport error is propagated as the operation's failure; instead
the operation writes no error response at all and reports success with the
unpolled instance returned by `Create()`. -/
theorem createTunnel_pollTransportError_counterexample :
    createTunnel validCreateArgs (pollErrAccountProvider "connection reset") =
      ⟨[.listInstances, .listScripts, .createInstance, .queryInstance],
       [.okInstance createdInstance], false⟩ ∧
    WriteEvent.errorResponse ∉
      (createTunnel validCreateArgs (pollErrAccountProvider "connection reset")).writes :=
  ⟨by decide, by decide⟩

/-- C5 (amended): a transport error at status poll `k` (0-based, within
the attempt budget, all earlier polls decoding non-running statuses) makes
the poller abort immediately — it performs exactly `k + 1` polls, none
after the failing one — and propagate that transport error to the
orchestration verb.  The verb, however — for EVERY Create invocation and
EVERY Rebuild invocation that reaches polling (guard passed, validation
passed, script found, creation/rebuild succeeded) against ANY provider
whose poll oracle is `query` — degrades the transport error exactly like
the convergence timeout: it writes the single success response carrying
the unpolled instance returned by `Create()`/`Rebuild()`, and never an
error response. -/
theorem awaitUntilRunning_transportAbort_degradedToSuccess
    (query : Nat → Except String LinodeInfo) (k : Nat) (e : String)
    (hk : k < pollMaxAttempts)
    (hok : ∀ j, j < k →
      ∃ i, query j = Except.ok i ∧ i.status ≠ LinodeStatus.running)
    (hq : query k = Except.error e) :
    (awaitUntilRunning query).result = .error (.transport e) ∧
    (awaitUntilRunning query).polls = k + 1 ∧
    (∀ (args : LinodeCreateTunnelRequest) (prov : Provider)
        (created : LinodeInfo),
      prov.pollResults = query →
      ¬ (extractAuth args.auth).length = 0 →
      ensureTunnelDoesNotExist prov.listInstances instanceLabel = none →
      ¬ args.plan = "" → ¬ args.region = "" →
      (∃ sp, makeStackScriptParams prov.listScripts instanceScript
          args.regularAccountName args.regularAccountPassword
          args.wireguardOptions args.obfsproxy4Options args.obfsproxy6Options =
        Except.ok sp) →
      prov.createResult = Except.ok created →
      createTunnel args prov =
        ⟨[.listInstances, .listScripts, .createInstance] ++
            List.replicate (k + 1) .queryInstance,
         [.okInstance created], false⟩) ∧
    (∀ (rargs : LinodeRebuildTunnelRequest) (prov : Provider)
        (t rebuilt : LinodeInfo),
      prov.pollResults = query →
      ¬ (extractAuth rargs.auth).length = 0 →
      ensureTunnelExists prov.listInstances instanceLabel = Except.ok t →
      (∃ sp, makeStackScriptParams prov.listScripts instanceScript
          rargs.regularAccountName rargs.regularAccountPassword
          rargs.wireguardOptions rargs.obfsproxy4Options rargs.obfsproxy6Options =
        Except.ok sp) →
      prov.rebuildResult = Except.ok rebuilt →
      rebuildTunnel rargs prov =
        ⟨[.listInstances, .listScripts, .rebuildInstance] ++
            List.replicate (k + 1) .queryInstance,
         [.okInstance rebuilt], false⟩) := by
  have ht := awaitGo_transport query e k 0 pollMaxAttempts (by omega) (by omega)
    (fun j hj => by simpa using hok j hj) (by simpa using hq)
  have har : awaitUntilRunning query =
      ⟨.error (.transport e), k + 1,
       2 * pollIntervalSeconds + k * pollIntervalSeconds⟩ := by
    simp only [awaitUntilRunning]
    rw [ht]
  refine ⟨by rw [har], by rw [har], ?_, ?_⟩
  · intro args prov created hpoll hkey hguard hplan hregion hscript hcreate
    obtain ⟨sp, hsp⟩ := hscript
    simp [createTunnel, hkey, hguard, hplan, hregion, hsp, hcreate, hpoll, har]
  · intro rargs prov t rebuilt hpoll hkey hguard hscript hrebuild
    obtain ⟨sp, hsp⟩ := hscript
    simp [rebuildTunnel, hkey, hguard, hsp, hrebuild, hpoll, har]

/-- Witness for `awaitUntilRunning_transportAbort_degradedToSuccess` at the
oracle whose first poll fails with "connection reset", instantiating both
the Create clause (empty account) and the Rebuild clause (occupied
account). -/
theorem awaitUntilRunning_transportAbort_degradedToSuccess_witness :
    (awaitUntilRunning (fun _ => Except.error "connection reset")).result =
      Except.error (AwaitError.transport "connection reset") ∧
    createTunnel validCreateArgs (pollErrAccountProvider "connection reset") =
      ⟨[.listInstances, .listScripts, .createInstance] ++
          List.replicate (0 + 1) .queryInstance,
       [.okInstance createdInstance], false⟩ ∧
    rebuildTunnel validRebuildArgs (occupiedPollErrProvider "connection reset") =
      ⟨[.listInstances, .listScripts, .rebuildInstance] ++
          List.replicate (0 + 1) .queryInstance,
       [.okInstance createdInstance], false⟩ := by
  have h := awaitUntilRunning_transportAbort_degradedToSuccess
    (fun _ => Except.error "connection reset") 0 "connection reset"
    (by decide) (fun j hj => absurd hj (Nat.not_lt_zero j)) rfl
  refine ⟨h.1, ?_, ?_⟩
  · exact h.2.2.1 validCreateArgs (pollErrAccountProvider "connection reset")
      createdInstance rfl (by decide) rfl (by decide) (by decide) ⟨_, rfl⟩ rfl
  · exact h.2.2.2 validRebuildArgs (occupiedPollErrProvider "connection reset")
      tunnelInstance createdInstance rfl (by decide) rfl ⟨_, rfl⟩ rfl

/-- C6: the convergence poller's policy.  The constants are the source's
reference values (7-second interval, 20 attempts, grace period of two
intervals — visible in the scripted run's slept time 2·7 + 2·7); on the
scripted status sequence [provisioning, provisioning, running] the poller
returns the running snapshot after exactly 3 polls; and for any oracle
that never reports `running` within the attempt budget it returns the
dedicated timeout error after exactly `pollMaxAttempts` polls — an error
distinct, by construction, from every transport error. -/
theorem convergence_poller_policy
    (query : Nat → Except String LinodeInfo)
    (h : ∀ k, k < pollMaxAttempts →
      ∃ i, query k = Except.ok i ∧ i.status ≠ LinodeStatus.running) :
    pollIntervalSeconds = 7 ∧ pollMaxAttempts = 20 ∧
    createdInstance.status = .provisioning ∧ tunnelInstance.status = .running ∧
    awaitUntilRunning
        (fun k => if k < 2 then .ok createdInstance else .ok tunnelInstance) =
      ⟨.ok tunnelInstance, 3, 2 * pollIntervalSeconds + 2 * pollIntervalSeconds⟩ ∧
    (awaitUntilRunning query).result = .error .timeout ∧
    (awaitUntilRunning query).polls = pollMaxAttempts ∧
    (∀ e, AwaitError.timeout ≠ AwaitError.transport e) := by
  have ht := awaitGo_timeout query pollMaxAttempts 0 (by omega) (by decide) h
  refine ⟨rfl, rfl, rfl, rfl, rfl, ?_, ?_, fun e he => nomatch he⟩
  · show (awaitGo query 0 pollMaxAttempts).result = .error .timeout
    rw [ht]
  · show (awaitGo query 0 pollMaxAttempts).polls = pollMaxAttempts
    rw [ht]

/-- Witness for `convergence_poller_policy` at the oracle that always
reports a provisioning instance. -/
theorem convergence_poller_policy_witness :
    (awaitUntilRunning (fun _ => Except.ok createdInstance)).result =
      Except.error AwaitError.timeout ∧
    (awaitUntilRunning (fun _ => Except.ok createdInstance)).polls =
      pollMaxAttempts := by
  have h := convergence_poller_policy (fun _ => Except.ok createdInstance)
    (fun k _ => ⟨createdInstance, rfl, by decide⟩)
  exact ⟨h.2.2.2.2.2.1, h.2.2.2.2.2.2.1⟩

/-- C7 counterexample: for status 500 with no structured body, the
synthesized generic error is exactly the formatted message — which
references the endpoint (and method), but does NOT carry the raw status:
the digits "500" occur nowhere in it.  The claim's "carrying the raw
status" is therefore false. -/
theorem classifyResponse_noStatusInGeneric_counterexample :
    classifyResponse "GET" "/linode/instances" 500 none =
      some (.generic (errFormatMsg "GET" "/linode/instances"
        "No error object, details missing")) ∧
    containsChunk (errFormatMsg "GET" "/linode/instances"
        "No error object, details missing").toList "500".toList = false ∧
    containsChunk (errFormatMsg "GET" "/linode/instances"
        "No error object, details missing").toList "/linode/instances".toList = true :=
  ⟨rfl, by decide, by decide⟩

/-- C7 (amended): for every response with status > 299 — when a structured
provider error is decoded, its auth flag is true iff the status is 401 and
its permissions flag is true iff the status is 403; when no error object
is present, a generic error is synthesized referencing the endpoint and
the method (the raw numeric status is not embedded in the error). -/
theorem classifyResponse_statusFlags_genericShape
    (method endpoint : String) (status : Nat) (body : LinodeErrorBody)
    (h : 299 < status) :
    (∃ ce, classifyResponse method endpoint status (some (.linode body)) =
        some (.linode ce) ∧ ce.body = body ∧
        (ce.isAuthError = true ↔ status = 401) ∧
        (ce.isPermissionsError = true ↔ status = 403)) ∧
    classifyResponse method endpoint status none =
      some (.generic (errFormatMsg method endpoint
        "No error object, details missing")) ∧
    (∃ pre post, errFormatMsg method endpoint "No error object, details missing" =
        pre ++ endpoint ++ post) ∧
    (∃ pre post, errFormatMsg method endpoint "No error object, details missing" =
        pre ++ method ++ post) := by
  refine ⟨⟨⟨body, status == 401, status == 403⟩, ?_, rfl, by simp, by simp⟩, ?_, ?_, ?_⟩
  · simp [classifyResponse, h]
  · simp [classifyResponse, h]
  · exact ⟨"API error (" ++ method ++ " '", "'): " ++ "No error object, details missing",
      by simp [errFormatMsg, String.append_assoc]⟩
  · exact ⟨"API error (", " '" ++ endpoint ++ "'): " ++ "No error object, details missing",
      by simp [errFormatMsg, String.append_assoc]⟩

/-- Witness for `classifyResponse_statusFlags_genericShape` at a concrete
401 response. -/
theorem classifyResponse_statusFlags_genericShape_witness :
    (∃ ce, classifyResponse "GET" "/linode/instances" 401
        (some (.linode ⟨[("", "Invalid token")]⟩)) =
        some (.linode ce) ∧ ce.body = ⟨[("", "Invalid token")]⟩ ∧
        (ce.isAuthError = true ↔ 401 = 401) ∧
        (ce.isPermissionsError = true ↔ 401 = 403)) ∧
    classifyResponse "GET" "/linode/instances" 401 none =
      some (.generic (errFormatMsg "GET" "/linode/instances"
        "No error object, details missing")) ∧
    (∃ pre post, errFormatMsg "GET" "/linode/instances"
        "No error object, details missing" = pre ++ "/linode/instances" ++ post) ∧
    (∃ pre post, errFormatMsg "GET" "/linode/instances"
        "No error object, details missing" = pre ++ "GET" ++ post) :=
  classifyResponse_statusFlags_genericShape "GET" "/linode/instances" 401
    ⟨[("", "Invalid token")]⟩ (by decide)

/-- C9: the provisioning parameter map always contains the account
username/password keys; each of the three optional features contributes an
explicit enable flag — 1 when its options are present, 0 when absent — and
its specific fields (port, key/secret, wireguard peer list joined by
single spaces) are present exactly when the feature is enabled.  In
particular, wireguard-absent + obfs4-present input yields
`udf_enable_wireguard = 0` with no wireguard field, and
`udf_enable_obfs4 = 1` with its port and secret. -/
theorem stackScriptUdfParams_contract
    (username password : String) (wg : Option WireguardOptions)
    (obfs4 : Option ObfsproxyIPv4Options) (obfs6 : Option ObfsproxyIPv6Options) :
    (stackScriptUdfParams username password wg obfs4 obfs6).lookup
        "udf_local_user_name" = some (.str username) ∧
    (stackScriptUdfParams username password wg obfs4 obfs6).lookup
        "udf_local_user_password" = some (.str password) ∧
    (stackScriptUdfParams username password wg obfs4 obfs6).lookup
        "udf_enable_wireguard" =
      some (.num (match wg with | some _ => 1 | none => 0)) ∧
    (stackScriptUdfParams username password wg obfs4 obfs6).lookup
        "udf_wireguard_port" =
      (match wg with | some w => some (.num w.port) | none => none) ∧
    (stackScriptUdfParams username password wg obfs4 obfs6).lookup
        "udf_wireguard_private_key" =
      (match wg with | some w => some (.str w.serverKey) | none => none) ∧
    (stackScriptUdfParams username password wg obfs4 obfs6).lookup
        "udf_wireguard_peer_keys" =
      (match wg with
       | some w => some (.str (String.intercalate " " w.peerKeys))
       | none => none) ∧
    (stackScriptUdfParams username password wg obfs4 obfs6).lookup
        "udf_enable_obfs4" =
      some (.num (match obfs4 with | some _ => 1 | none => 0)) ∧
    (stackScriptUdfParams username password wg obfs4 obfs6).lookup
        "udf_obfs4_port" =
      (match obfs4 with | some o => some (.num o.port) | none => none) ∧
    (stackScriptUdfParams username password wg obfs4 obfs6).lookup
        "udf_obfs4_secret" =
      (match obfs4 with | some o => some (.str o.secret) | none => none) ∧
    (stackScriptUdfParams username password wg obfs4 obfs6).lookup
        "udf_enable_obfs6" =
      some (.num (match obfs6 with | some _ => 1 | none => 0)) ∧
    (stackScriptUdfParams username password wg obfs4 obfs6).lookup
        "udf_obfs6_port" =
      (match obfs6 with | some o => some (.num o.port) | none => none) ∧
    (stackScriptUdfParams username password wg obfs4 obfs6).lookup
        "udf_obfs6_secret" =
      (match obfs6 with | some o => some (.str o.secret) | none => none) := by
  cases wg <;> cases obfs4 <;> cases obfs6 <;>
    simp [stackScriptUdfParams, List.lookup]

/-- C10: for every authenticated operation (create, rebuild, destroy,
status, list-instances, list-scripts) invoked with an absent auth message
or an empty access token, the extracted api key is empty and the operation
panics in `authedR` while constructing its first authenticated provider
request — before issuing any network call or writing any response. -/
theorem authedOps_emptyCredential_panic
    (a : Option LinodeAuth) (h : a = none ∨ a = some ⟨""⟩) :
    extractAuth a = "" ∧
    (∀ (args : LinodeCreateTunnelRequest) (prov : Provider), args.auth = a →
      createTunnel args prov = panicRun) ∧
    (∀ (args : LinodeRebuildTunnelRequest) (prov : Provider), args.auth = a →
      rebuildTunnel args prov = panicRun) ∧
    (∀ prov, destroyTunnel a prov = panicRun) ∧
    (∀ prov, tunnelStatus a prov = panicRun) ∧
    (∀ prov, listInstancesOp a prov = panicRun) ∧
    (∀ prov, listStackScriptsOp a prov = panicRun) := by
  have he : extractAuth a = "" := by
    rcases h with h | h <;> subst h <;> rfl
  refine ⟨he, ?_, ?_, ?_, ?_, ?_, ?_⟩
  · intro args prov hargs
    simp [createTunnel, hargs, he]
  · intro args prov hargs
    simp [rebuildTunnel, hargs, he]
  · intro prov
    simp [destroyTunnel, he]
  · intro prov
    simp [tunnelStatus, he]
  · intro prov
    simp [listInstancesOp, he]
  · intro prov
    simp [listStackScriptsOp, he]

/-- Witness for `authedOps_emptyCredential_panic` at the absent-auth
requests against the empty-account provider. -/
theorem authedOps_emptyCredential_panic_witness :
    extractAuth none = "" ∧
    createTunnel noAuthCreateArgs emptyAccountProvider = panicRun ∧
    rebuildTunnel noAuthRebuildArgs emptyAccountProvider = panicRun ∧
    destroyTunnel none emptyAccountProvider = panicRun ∧
    tunnelStatus none emptyAccountProvider = panicRun ∧
    listInstancesOp none emptyAccountProvider = panicRun ∧
    listStackScriptsOp none emptyAccountProvider = panicRun := by
  have h := authedOps_emptyCredential_panic none (Or.inl rfl)
  exact ⟨h.1, h.2.1 noAuthCreateArgs emptyAccountProvider rfl,
    h.2.2.1 noAuthRebuildArgs emptyAccountProvider rfl,
    h.2.2.2.1 emptyAccountProvider, h.2.2.2.2.1 emptyAccountProvider,
    h.2.2.2.2.2.1 emptyAccountProvider, h.2.2.2.2.2.2 emptyAccountProvider⟩
